import Mathlib

/-!
# db-srv storage backends: Redis and Elasticsearch drivers

A shallow embedding of `db/redis/redis.go` and `db/elasticsearch/elasticsearch.go`.

Conventions of the embedding.

* A Go method with a pointer receiver or a pointer argument returns the value the
  pointer refers to after the call, next to its Go results.
* A Go `error` result is an `Option Err`; `none` is `nil`.
* A Go `map[string]T` that is only indexed and assigned is a function
  `String → Option T`; a map that is ranged over is the list of its entries in
  the order the `range` statement visits them.
* The client libraries (`gopkg.in/redis.v4`, `elastigo`, `encoding/json`) and the
  wall clock are not part of the repository: they are parameters of the operations.
* The reader/writer lock of a handle is not modelled: every operation is taken as
  one atomic step.
-/

namespace DbSrv

/-! ## Package `db` and `proto/db` -/

/-- The errors of package `db` that the drivers return, and the errors that come
back from a client library or from `encoding/json`. -/
inductive Err where
  | ErrNotAvailable
  | ErrNotFound
  | backend (msg : String)
  deriving DecidableEq, Repr

/-- Modelled from the spec: the generated type `mdb.Record` is not among the sources.
The spec gives it an `Id`, the unix timestamps `Created` and `Updated`, and opaque
payload fields, which are the type parameter `P` here. -/
structure Record (P : Type) where
  Id : String
  Created : Int
  Updated : Int
  Data : P
  deriving DecidableEq, Repr

/-- Modelled from the spec: the generated type `mdb.Database`, the descriptor
`{ name, table }` handed to `Init`. -/
structure Database where
  Name : String
  Table : String
  deriving DecidableEq, Repr

/-- The two fields of `registry.Node` that the drivers read. -/
structure Node where
  Address : String
  Port : Int
  deriving DecidableEq, Repr

/-- The `%d` verb of `fmt.Sprintf` on a signed integer: decimal digits, with a
leading minus sign for a negative number. -/
def fmtD (n : Int) : String :=
  if n < 0 then "-" ++ Nat.repr n.natAbs else Nat.repr n.natAbs

/-- The call `fmt.Sprintf("%s:%d", nodes[0].Address, nodes[0].Port)`. -/
def nodeUrl (n : Node) : String :=
  n.Address ++ ":" ++ fmtD n.Port

/-- The two functions of `encoding/json` that the drivers call, at type `mdb.Record`. -/
structure Json (P : Type) where
  Marshal : Record P → Except Err String
  Unmarshal : String → Except Err (Record P)

/-- The stamping both drivers do at the start of `Create` and `Update`:
`if r.Created == 0 { r.Created = time.Now().Unix() }; r.Updated = time.Now().Unix()`.
`t₁` is the reading of the first call of `time.Now().Unix()`, when it is made,
and `t₂` the reading of the second. -/
def stamp {P : Type} (r : Record P) (t₁ t₂ : Int) : Record P :=
  let r := if r.Created = 0 then { r with Created := t₁ } else r
  { r with Updated := t₂ }

/-! ## Package `redis` -/

namespace redis

/-- The bytes of a Go string. -/
def bytes (s : String) : List Nat :=
  s.toUTF8.data.toList.map UInt8.toNat

/-- The offset basis of 32-bit FNV (`hash/fnv`). -/
def offset32 : Nat := 2166136261

/-- The prime of 32-bit FNV (`hash/fnv`). -/
def prime32 : Nat := 16777619

/-- The value `Sum32` returns after `fnv.New32a()` and one `Write` of `bs`: for each
byte, xor it into the hash and multiply by the prime, in 32 bits. -/
def fnv32a (bs : List Nat) : Nat :=
  bs.foldl (fun h b => ((h ^^^ b) * prime32) % 2 ^ 32) offset32

/-- The function `hash` of `redis.go`. -/
def hash (s : String) : Nat :=
  fnv32a (bytes s) &&& 16

/-- The package variable `RedisPass`, at its declared value. -/
def RedisPass : String := ""

/-- The `redis.Options` a client is created with; `redis.NewClient` only records them. -/
structure Client where
  Addr : String
  Password : String
  DB : Nat
  deriving DecidableEq, Repr

/-- The type `redisDB`, without its lock. -/
structure redisDB where
  redisIndex : String
  redisType : String
  url : String
  clients : String → Option Client

/-- The three commands of `redis.Client` that the driver issues, against a server
state `σ`. Each returns the server state after the command and the error the
command object carries; `Get` also returns the value `Val()` gives. -/
structure Server (σ : Type) where
  Set : Client → String → String → σ → σ × Option Err
  Get : Client → String → σ → String × Option Err
  Del : Client → String → σ → σ × Option Err

/-- The method `redisDriver.NewDB`. The zero values of `redisIndex` and `redisType`
are empty strings, and `make` gives an empty map. -/
def NewDB (nodes : List Node) : Option redisDB × Option Err :=
  match nodes with
  | [] => (none, some Err.ErrNotAvailable)
  | n :: _ =>
    (some { redisIndex := "", redisType := "", url := nodeUrl n, clients := fun _ => none },
     none)

/-- The method `redisDB.Init`. -/
def redisDB.Init (d : redisDB) (mdb : Database) : redisDB × Option Err :=
  let client : Client := { Addr := d.url, Password := RedisPass, DB := hash mdb.Table }
  ({ d with
      clients := Function.update d.clients mdb.Table (some client)
      redisIndex := mdb.Name
      redisType := mdb.Table },
   none)

/-- What `redisDB.Close` does with `client.Close()`: it does not reach the call, or
it makes the call on the value of `client`, which is `none` for the nil pointer
that a failed map lookup yields. -/
inductive CloseCall where
  | notReached
  | calledOn (client : Option Client)
  deriving DecidableEq, Repr

/-- The method `redisDB.Close`, up to the call of `client.Close()`: the lookup
`client, ok := d.clients[d.redisType]` and the branch `if !ok { client.Close() }`.
The second component is the error the method returns when it gets to `return nil`. -/
def redisDB.Close (d : redisDB) : CloseCall × Option Err :=
  match d.clients d.redisType with
  | some _ => (CloseCall.notReached, none)
  | none => (CloseCall.calledOn none, none)

/-- The method `redisDB.Read`. -/
def redisDB.Read {σ P : Type} (S : Server σ) (J : Json P) (d : redisDB) (id : String)
    (w : σ) : Option (Record P) × Option Err :=
  match d.clients d.redisType with
  | none => (none, some Err.ErrNotFound)
  | some client =>
    let val := (S.Get client id w).1
    if val.length = 0 then (none, none)
    else
      match J.Unmarshal val with
      | Except.error err => (none, some err)
      | Except.ok pl => (some pl, none)

/-- The method `redisDB.Create`. The results are the record `r` points to after the
call, the error, and the server state. -/
def redisDB.Create {σ P : Type} (S : Server σ) (J : Json P) (d : redisDB) (r : Record P)
    (t₁ t₂ : Int) (w : σ) : Record P × Option Err × σ :=
  let r := stamp r t₁ t₂
  match J.Marshal r with
  | Except.error err => (r, some err, w)
  | Except.ok res =>
    match d.clients d.redisType with
    | some client => (r, none, (S.Set client r.Id res w).1)
    | none => (r, none, w)

/-- The method `redisDB.Update`. -/
def redisDB.Update {σ P : Type} (S : Server σ) (J : Json P) (d : redisDB) (r : Record P)
    (t₁ t₂ : Int) (w : σ) : Record P × Option Err × σ :=
  let r := stamp r t₁ t₂
  match J.Marshal r with
  | Except.error err => (r, some err, w)
  | Except.ok res =>
    match d.clients d.redisType with
    | some client => (r, none, (S.Set client r.Id res w).1)
    | none => (r, none, w)

/-- The method `redisDB.Delete`. -/
def redisDB.Delete {σ : Type} (S : Server σ) (d : redisDB) (id : String) (w : σ) :
    Option Err × σ :=
  match d.clients d.redisType with
  | some client => (none, (S.Del client id w).1)
  | none => (none, w)

/-- The contents of the Redis servers: the value, if any, stored at an address, in
a logical database, under a key. -/
abbrev Store := String → Nat → String → Option String

/-- The store with nothing in it. -/
def Store.empty : Store := fun _ _ _ => none

/-- Servers on which every command succeeds: `Set` stores the value under the key in
the logical database the client selected, `Get` gives the stored value, or the empty
string with the error of a missing key, and `Del` removes the key. -/
def kv : Server Store where
  Set c key val w :=
    (fun a n k => if a = c.Addr ∧ n = c.DB ∧ k = key then some val else w a n k, none)
  Get c key w :=
    match w c.Addr c.DB key with
    | some val => (val, none)
    | none => ("", some (Err.backend "redis: nil"))
  Del c key w :=
    (fun a n k => if a = c.Addr ∧ n = c.DB ∧ k = key then none else w a n k, none)

end redis

/-! ## Package `elasticsearch` -/

namespace elasticsearch

/-- The connection `elib.NewConn()` gives after `SetHosts`. -/
structure Conn where
  Hosts : List String
  deriving DecidableEq, Repr

/-- The type `elasticsearchDB`, without its lock. -/
structure elasticsearchDB where
  elasticIndex : String
  elasticType : String
  conn : Conn
  deriving DecidableEq, Repr

/-- The value `&elib.SortDsl{Name: ..., IsDesc: ...}`. -/
structure SortDsl where
  Name : String
  IsDesc : Bool
  deriving DecidableEq, Repr

/-- The request `elib.Search(index).Sort(s).Type(t).Size(size).From(from).Search(query)`
builds: each builder method records its argument. -/
structure SearchDsl where
  Index : String
  SortBody : List SortDsl
  TypesVar : List String
  SizeVal : String
  FromVal : String
  QueryVal : String
  deriving DecidableEq, Repr

/-- The calls of `elib.Conn` that the driver makes, against a cluster state `σ`. A
call that writes returns the cluster state after it and its error; `Get` and `Result`
return the JSON sources of the document and of the hits. -/
structure Cluster (σ P : Type) where
  Health : Conn → σ → σ × Option Err
  IndicesExists : Conn → String → σ → Bool
  CreateIndex : Conn → String → σ → σ × Option Err
  Close : Conn → σ → σ
  Get : Conn → String → String → String → σ → Except Err String
  Index : Conn → String → String → String → Record P → σ → σ × Option Err
  Delete : Conn → String → String → String → σ → σ × Option Err
  Result : SearchDsl → Conn → σ → Except Err (List String)

/-- The method `elasticsearchDriver.NewDB`. -/
def NewDB {σ P : Type} (C : Cluster σ P) (nodes : List Node) (w : σ) :
    Option elasticsearchDB × Option Err × σ :=
  match nodes with
  | [] => (none, some Err.ErrNotAvailable, w)
  | n :: _ =>
    let connection : Conn := { Hosts := [nodeUrl n] }
    match C.Health connection w with
    | (w, some err) => (none, some err, w)
    | (w, none) => (some { elasticIndex := "", elasticType := "", conn := connection }, none, w)

/-- The method `elasticsearchDB.Init`. -/
def elasticsearchDB.Init {σ P : Type} (C : Cluster σ P) (d : elasticsearchDB)
    (mdb : Database) (w : σ) : elasticsearchDB × Option Err × σ :=
  let bind : elasticsearchDB := { d with elasticIndex := mdb.Name, elasticType := mdb.Table }
  if C.IndicesExists d.conn mdb.Name w then (bind, none, w)
  else
    match C.CreateIndex d.conn mdb.Name w with
    | (w, some err) => (d, some err, w)
    | (w, none) => (bind, none, w)

/-- The method `elasticsearchDB.Close`. -/
def elasticsearchDB.Close {σ P : Type} (C : Cluster σ P) (d : elasticsearchDB) (w : σ) :
    Option Err × σ :=
  (none, C.Close d.conn w)

/-- The method `elasticsearchDB.Read`. -/
def elasticsearchDB.Read {σ P : Type} (C : Cluster σ P) (J : Json P) (d : elasticsearchDB)
    (id : String) (w : σ) : Option (Record P) × Option Err :=
  match C.Get d.conn d.elasticIndex d.elasticType id w with
  | Except.error err => (none, some err)
  | Except.ok source =>
    match J.Unmarshal source with
    | Except.error err => (none, some err)
    | Except.ok pl => (some pl, none)

/-- The method `elasticsearchDB.Create`. The results are the record `r` points to
after the call, the error, and the cluster state. -/
def elasticsearchDB.Create {σ P : Type} (C : Cluster σ P) (d : elasticsearchDB)
    (r : Record P) (t₁ t₂ : Int) (w : σ) : Record P × Option Err × σ :=
  let r := stamp r t₁ t₂
  let res := C.Index d.conn d.elasticIndex d.elasticType r.Id r w
  (r, res.2, res.1)

/-- The method `elasticsearchDB.Update`. -/
def elasticsearchDB.Update {σ P : Type} (C : Cluster σ P) (d : elasticsearchDB)
    (r : Record P) (t₁ t₂ : Int) (w : σ) : Record P × Option Err × σ :=
  let r := stamp r t₁ t₂
  let res := C.Index d.conn d.elasticIndex d.elasticType r.Id r w
  (r, res.2, res.1)

/-- The method `elasticsearchDB.Delete`. -/
def elasticsearchDB.Delete {σ P : Type} (C : Cluster σ P) (d : elasticsearchDB)
    (id : String) (w : σ) : Option Err × σ :=
  let res := C.Delete d.conn d.elasticIndex d.elasticType id w
  (res.2, res.1)

/-- The clause `fmt.Sprintf("%s:(%s)", k, v)` of `Search`. -/
def clause (k v : String) : String :=
  k ++ ":(" ++ v ++ ")"

/-- One pass through the body of the loop `for k, v := range md` of `Search`, on the
variables `query` and `first`. -/
def queryStep (st : String × Bool) (kv : String × String) : String × Bool :=
  if st.1.length = 0 then (st.1 ++ " ", st.2)
  else
    let q := if st.2 then st.1 else st.1 ++ " AND "
    (q ++ clause kv.1 kv.2, false)

/-- The variable `query` of `Search` when the request is built. `md` lists the
entries of the map in the order the `range` statement visits them. -/
def searchQuery (md : List (String × String)) : String :=
  if md.length > 0 then (md.foldl queryStep ("", true)).1 else "*"

/-- The request `Search` builds, the value of `elasticQuery`. -/
def elasticsearchDB.searchDsl (d : elasticsearchDB) (md : List (String × String))
    (limit offset : Int) (reverse : Bool) : SearchDsl :=
  let limit := if limit ≤ 0 then 10 else limit
  let offset := if offset < 0 then 0 else offset
  let size := fmtD limit
  let offs := fmtD offset
  let query := searchQuery md
  let sortDsl : SortDsl := { Name := "created", IsDesc := reverse }
  { Index := d.elasticIndex
    SortBody := [sortDsl]
    TypesVar := [d.elasticType]
    SizeVal := size
    FromVal := offs
    QueryVal := query }

/-- The loop of `Search` over the hits: decode each source, stop at the first
error. -/
def decodeHits {P : Type} (J : Json P) : List String → Except Err (List (Record P))
  | [] => Except.ok []
  | source :: hits =>
    match J.Unmarshal source with
    | Except.error err => Except.error err
    | Except.ok rec =>
      match decodeHits J hits with
      | Except.error err => Except.error err
      | Except.ok records => Except.ok (rec :: records)

/-- The method `elasticsearchDB.Search`. -/
def elasticsearchDB.Search {σ P : Type} (C : Cluster σ P) (J : Json P) (d : elasticsearchDB)
    (md : List (String × String)) (limit offset : Int) (reverse : Bool) (w : σ) :
    Except Err (List (Record P)) :=
  match C.Result (d.searchDsl md limit offset reverse) d.conn w with
  | Except.error err => Except.error err
  | Except.ok hits => decodeHits J hits

end elasticsearch

/-! ## Sample values for the worked examples -/

namespace sample

/-- A node of the registry. -/
def node : Node := { Address := "localhost", Port := 6379 }

/-- A record as a caller hands it to `Create`: no timestamps yet. -/
def post : Record String := { Id := "1", Created := 0, Updated := 0, Data := "hello" }

/-- The record `post` after a write at second 1478253600. -/
def stamped : Record String :=
  { Id := "1", Created := 1478253600, Updated := 1478253600, Data := "hello" }

/-- A stand-in for `encoding/json` on records with a string payload: the encoder
writes the four fields separated by commas, the decoder knows the encoding of
`stamped` and rejects every other text. -/
def json : Json String where
  Marshal r := Except.ok (r.Id ++ "," ++ fmtD r.Created ++ "," ++ fmtD r.Updated ++ "," ++ r.Data)
  Unmarshal s :=
    if s = "1,1478253600,1478253600,hello" then Except.ok stamped
    else Except.error (Err.backend "invalid character")

/-- Redis servers that cannot be reached: every command carries the error
`connection refused` and stores nothing. -/
def down : redis.Server redis.Store where
  Set _ _ _ w := (w, some (Err.backend "connection refused"))
  Get _ _ _ := ("", some (Err.backend "connection refused"))
  Del _ _ w := (w, some (Err.backend "connection refused"))

/-- A fresh Redis handle for `node`, as `NewDB` returns it. -/
def fresh : redis.redisDB :=
  { redisIndex := "", redisType := "", url := "localhost:6379", clients := fun _ => none }

/-- An Elasticsearch handle bound to the index `blog` and the type `posts`. -/
def index : elasticsearch.elasticsearchDB :=
  { elasticIndex := "blog", elasticType := "posts", conn := { Hosts := ["localhost:9200"] } }

/-- An Elasticsearch cluster that answers every search with an error quoting the
size, the start and the query string of the request it was sent; the other calls
succeed and change nothing. -/
def echo : elasticsearch.Cluster Unit String where
  Health _ w := (w, none)
  IndicesExists _ _ _ := true
  CreateIndex _ _ w := (w, none)
  Close _ w := w
  Get _ _ _ _ _ := Except.error Err.ErrNotFound
  Index _ _ _ _ _ w := (w, none)
  Delete _ _ _ _ w := (w, none)
  Result req _ _ :=
    Except.error (Err.backend (req.SizeVal ++ " " ++ req.FromVal ++ " " ++ req.QueryVal))

end sample

/-! ## Lemmas -/

theorem stamp_Id {P : Type} (r : Record P) (t₁ t₂ : Int) : (stamp r t₁ t₂).Id = r.Id := by
  unfold stamp
  split <;> rfl

theorem stamp_Data {P : Type} (r : Record P) (t₁ t₂ : Int) : (stamp r t₁ t₂).Data = r.Data := by
  unfold stamp
  split <;> rfl

theorem stamp_Updated {P : Type} (r : Record P) (t₁ t₂ : Int) :
    (stamp r t₁ t₂).Updated = t₂ := by
  unfold stamp
  split <;> rfl

theorem stamp_Created {P : Type} (r : Record P) (t₁ t₂ : Int) :
    (stamp r t₁ t₂).Created = if r.Created = 0 then t₁ else r.Created := by
  unfold stamp
  split <;> rfl

theorem land_sixteen (n : Nat) : n &&& 16 = 0 ∨ n &&& 16 = 16 := by
  have h := Nat.and_two_pow n 4
  norm_num at h
  rw [h]
  cases n.testBit 4 <;> simp

theorem redis.Init_client (d : redis.redisDB) (mdb : Database) :
    (d.Init mdb).1.clients (d.Init mdb).1.redisType
      = some { Addr := d.url, Password := redis.RedisPass, DB := redis.hash mdb.Table } := by
  simp [redis.redisDB.Init]

theorem length_eq_zero_iff (s : String) : s.length = 0 ↔ s = "" := by
  constructor
  · intro h
    exact String.ext (List.length_eq_zero.mp h)
  · rintro rfl
    rfl

theorem redis.Create_eq {σ P : Type} (S : redis.Server σ) (J : Json P) (d : redis.redisDB)
    (mdb : Database) (r : Record P) (t₁ t₂ : Int) (w : σ) (res : String)
    (hm : J.Marshal (stamp r t₁ t₂) = Except.ok res) :
    (d.Init mdb).1.Create S J r t₁ t₂ w
      = (stamp r t₁ t₂, none,
          (S.Set { Addr := d.url, Password := redis.RedisPass, DB := redis.hash mdb.Table }
            r.Id res w).1) := by
  simp only [redis.redisDB.Create, hm, redis.Init_client, stamp_Id]

theorem redis.kv_Get_Set_other (c c' : redis.Client) (key val id : String) (w : redis.Store)
    (h : c.DB ≠ c'.DB) :
    redis.kv.Get c' id (redis.kv.Set c key val w).1 = redis.kv.Get c' id w := by
  have h' : ¬ c'.DB = c.DB := fun e => h e.symm
  simp [redis.kv, h']

theorem join_cons (a : String) (l : List String) : String.join (a :: l) = a ++ String.join l := by
  apply String.ext
  simp [String.join_eq]

theorem elasticsearch.foldl_queryStep_rest (rest : List (String × String)) (q : String)
    (hq : q.length ≠ 0) :
    (rest.foldl elasticsearch.queryStep (q, false)).1
      = q ++ String.join (rest.map fun kv => " AND " ++ elasticsearch.clause kv.1 kv.2) := by
  induction rest generalizing q with
  | nil =>
    apply String.ext
    simp [String.join]
  | cons kv rest ih =>
    have hstep : elasticsearch.queryStep (q, false) kv
        = (q ++ " AND " ++ elasticsearch.clause kv.1 kv.2, false) := by
      simp [elasticsearch.queryStep, hq]
    rw [List.foldl_cons, hstep, ih, List.map_cons, join_cons]
    · simp only [String.append_assoc]
    · simp only [String.length_append]
      omega

/-! ## Claims -/

/-- C10: for every table name `s`, `hash s` is the 32-bit FNV-1a hash of the bytes of
`s` and-ed with 16, and it is 0 or 16, as is the hash of any byte sequence and-ed with
16. `Init` registers for the table a client whose logical database is `hash` of the
table name, whatever the handle and the namespace name are, so every table lands on
database 0 or 16; both are taken, by the tables `a` and `posts`. -/
theorem redis.hash_slot :
    (∀ s : String, redis.hash s = redis.fnv32a (redis.bytes s) &&& 16
        ∧ (redis.hash s = 0 ∨ redis.hash s = 16))
    ∧ (∀ bs : List Nat, redis.fnv32a bs &&& 16 = 0 ∨ redis.fnv32a bs &&& 16 = 16)
    ∧ (∀ (d : redis.redisDB) (name table : String),
        ((d.Init { Name := name, Table := table }).1.clients table).map (fun c => c.DB)
          = some (redis.hash table))
    ∧ redis.hash "a" = 0 ∧ redis.hash "posts" = 16 := by
  refine ⟨fun s => ⟨rfl, land_sixteen _⟩, fun bs => land_sixteen _, ?_, by decide, by decide⟩
  intro d name table
  simp [redis.redisDB.Init]

/-- C5: `NewDB` with no nodes returns no handle and `ErrNotAvailable`, in the Redis
driver and in the Elasticsearch driver; the Elasticsearch driver leaves the cluster
as it was, whatever the client library would do (the Redis driver calls no server
in `NewDB` at all). -/
theorem newdb_no_nodes :
    redis.NewDB [] = (none, some Err.ErrNotAvailable)
    ∧ ∀ (σ P : Type) (C : elasticsearch.Cluster σ P) (w : σ),
        elasticsearch.NewDB C [] w = (none, some Err.ErrNotAvailable, w) :=
  ⟨rfl, fun _ _ _ _ => rfl⟩

/-- C2: in `Create` and `Update` of both drivers, for every record and all clock
readings, the record after the call is the stamped record: `Created` is the clock
reading when it was zero on entry and is unchanged otherwise, `Updated` is the clock
reading, and `Id` and payload are as before. -/
theorem create_update_stamp {σ τ P : Type} (S : redis.Server σ) (J : Json P)
    (C : elasticsearch.Cluster τ P) (d : redis.redisDB) (e : elasticsearch.elasticsearchDB)
    (r : Record P) (t₁ t₂ : Int) (w : σ) (v : τ) :
    (d.Create S J r t₁ t₂ w).1 = stamp r t₁ t₂
    ∧ (d.Update S J r t₁ t₂ w).1 = stamp r t₁ t₂
    ∧ (e.Create C r t₁ t₂ v).1 = stamp r t₁ t₂
    ∧ (e.Update C r t₁ t₂ v).1 = stamp r t₁ t₂
    ∧ (stamp r t₁ t₂).Created = (if r.Created = 0 then t₁ else r.Created)
    ∧ (stamp r t₁ t₂).Updated = t₂
    ∧ (stamp r t₁ t₂).Id = r.Id
    ∧ (stamp r t₁ t₂).Data = r.Data := by
  refine ⟨?_, ?_, rfl, rfl, stamp_Created r t₁ t₂, stamp_Updated r t₁ t₂, stamp_Id r t₁ t₂,
    stamp_Data r t₁ t₂⟩
  · dsimp only [redis.redisDB.Create]
    rcases J.Marshal (stamp r t₁ t₂) with err | res <;>
      rcases d.clients d.redisType with _ | c <;> rfl
  · dsimp only [redis.redisDB.Update]
    rcases J.Marshal (stamp r t₁ t₂) with err | res <;>
      rcases d.clients d.redisType with _ | c <;> rfl

/-- C1: on a Redis handle bound by `Init`, over servers on which every command
succeeds, with a JSON encoder that gives a non-empty text for the stamped record and
a decoder that reads this text back, and with clock readings other than zero:
`Create(r)` returns no error, and `Read(r.Id)` after it returns no error and the
record `r` points to after `Create`, which has the `Id` and the payload of `r` and
non-zero `Created` and `Updated`. -/
theorem redis.create_then_read {P : Type} (J : Json P) (d : redis.redisDB) (mdb : Database)
    (r : Record P) (t₁ t₂ : Int) (w : redis.Store) (res : String)
    (hm : J.Marshal (stamp r t₁ t₂) = Except.ok res) (hne : res ≠ "")
    (hu : J.Unmarshal res = Except.ok (stamp r t₁ t₂))
    (h₁ : t₁ ≠ 0) (h₂ : t₂ ≠ 0) :
    ((d.Init mdb).1.Create redis.kv J r t₁ t₂ w).2.1 = none
    ∧ ∃ pl, (d.Init mdb).1.Read redis.kv J r.Id
          ((d.Init mdb).1.Create redis.kv J r t₁ t₂ w).2.2 = (some pl, none)
        ∧ pl = ((d.Init mdb).1.Create redis.kv J r t₁ t₂ w).1
        ∧ pl.Id = r.Id ∧ pl.Data = r.Data ∧ pl.Created ≠ 0 ∧ pl.Updated ≠ 0 := by
  have hc := redis.Init_client d mdb
  have hlen : ¬ res.length = 0 := fun h => hne ((length_eq_zero_iff res).mp h)
  rw [redis.Create_eq redis.kv J d mdb r t₁ t₂ w res hm]
  refine ⟨rfl, stamp r t₁ t₂, ?_, rfl, stamp_Id r t₁ t₂, stamp_Data r t₁ t₂, ?_, ?_⟩
  · simp only [redis.redisDB.Read, hc, redis.kv, and_self, if_true, hlen, if_false, hu]
  · rw [stamp_Created]
    split
    · exact h₁
    · assumption
  · rw [stamp_Updated]
    exact h₂

/-- C1, at the record `post` written at second 1478253600 through a fresh handle
bound to `blog`/`posts`, on empty servers. -/
theorem redis.create_then_read_witness :
    ((sample.fresh.Init { Name := "blog", Table := "posts" }).1.Create redis.kv sample.json
        sample.post 1478253600 1478253600 redis.Store.empty).2.1 = none
    ∧ ∃ pl, (sample.fresh.Init { Name := "blog", Table := "posts" }).1.Read redis.kv sample.json
          sample.post.Id
          ((sample.fresh.Init { Name := "blog", Table := "posts" }).1.Create redis.kv sample.json
            sample.post 1478253600 1478253600 redis.Store.empty).2.2 = (some pl, none)
        ∧ pl = ((sample.fresh.Init { Name := "blog", Table := "posts" }).1.Create redis.kv
            sample.json sample.post 1478253600 1478253600 redis.Store.empty).1
        ∧ pl.Id = sample.post.Id ∧ pl.Data = sample.post.Data ∧ pl.Created ≠ 0
        ∧ pl.Updated ≠ 0 :=
  redis.create_then_read sample.json sample.fresh { Name := "blog", Table := "posts" }
    sample.post 1478253600 1478253600 redis.Store.empty "1,1478253600,1478253600,hello"
    rfl (by decide) rfl (by decide) (by decide)

/-- C3: `Search` sends to the backend, through `Result`, the request whose size is the
decimal rendering of 10 when `limit <= 0` and of `limit` otherwise, and whose start is
the decimal rendering of 0 when `offset < 0` and of `offset` otherwise, and it returns
the decoded hits or the error of that call. So `limit` 0 gives the request and the
result of `limit` 10, and a negative `offset` gives the request and the result of
`offset` 0. -/
theorem elasticsearch.search_page (d : elasticsearch.elasticsearchDB)
    (md : List (String × String)) (limit offset : Int) (reverse : Bool) :
    (d.searchDsl md limit offset reverse).SizeVal = fmtD (if limit ≤ 0 then 10 else limit)
    ∧ (d.searchDsl md limit offset reverse).FromVal = fmtD (if offset < 0 then 0 else offset)
    ∧ (limit ≤ 0 → (d.searchDsl md limit offset reverse).SizeVal = "10")
    ∧ (offset < 0 → (d.searchDsl md limit offset reverse).FromVal = "0")
    ∧ d.searchDsl md 0 offset reverse = d.searchDsl md 10 offset reverse
    ∧ (offset < 0 → d.searchDsl md limit offset reverse = d.searchDsl md limit 0 reverse)
    ∧ (∀ (σ P : Type) (C : elasticsearch.Cluster σ P) (J : Json P) (w : σ),
        d.Search C J md 0 offset reverse w = d.Search C J md 10 offset reverse w
        ∧ (offset < 0 →
            d.Search C J md limit offset reverse w = d.Search C J md limit 0 reverse w)
        ∧ d.Search C J md limit offset reverse w
            = (match C.Result
                  { Index := d.elasticIndex
                    SortBody := [{ Name := "created", IsDesc := reverse }]
                    TypesVar := [d.elasticType]
                    SizeVal := fmtD (if limit ≤ 0 then 10 else limit)
                    FromVal := fmtD (if offset < 0 then 0 else offset)
                    QueryVal := elasticsearch.searchQuery md } d.conn w with
               | Except.error err => Except.error err
               | Except.ok hits => elasticsearch.decodeHits J hits))
    ∧ (limit ≤ 0 → offset < 0 →
        d.Search sample.echo sample.json md limit offset reverse ()
          = Except.error (Err.backend ("10 0 " ++ elasticsearch.searchQuery md))) := by
  have hneg : offset < 0 → d.searchDsl md limit offset reverse = d.searchDsl md limit 0 reverse := by
    intro h
    simp [elasticsearch.elasticsearchDB.searchDsl, h]
  have hzero : d.searchDsl md 0 offset reverse = d.searchDsl md 10 offset reverse := by
    simp [elasticsearch.elasticsearchDB.searchDsl]
  have hten : fmtD 10 = "10" := by decide
  have hnil : fmtD 0 = "0" := by decide
  refine ⟨rfl, rfl, ?_, ?_, hzero, hneg, ?_, ?_⟩
  · intro h
    simp only [elasticsearch.elasticsearchDB.searchDsl, h, if_true, hten]
  · intro h
    simp only [elasticsearch.elasticsearchDB.searchDsl, h, if_true, hnil]
  · intro σ P C J w
    refine ⟨?_, fun h => ?_, rfl⟩
    · simp only [elasticsearch.elasticsearchDB.Search, hzero]
    · simp only [elasticsearch.elasticsearchDB.Search, hneg h]
  · intro hl ho
    simp only [elasticsearch.elasticsearchDB.Search, elasticsearch.elasticsearchDB.searchDsl,
      sample.echo, hl, ho, if_true, hten, hnil]
    have hpre : ("10" ++ " " ++ "0" ++ " " : String) = "10 0 " := by decide
    rw [hpre]

/-- C3, at `limit` 0 and `offset` -5 on the handle bound to `blog`/`posts`: the
request has size `10` and start `0`, it is the request of `offset` 0, and the cluster
that quotes its request received size `10`, start `0` and the query `*`. -/
theorem elasticsearch.search_page_witness :
    (0 : Int) ≤ 0 ∧ (-5 : Int) < 0
    ∧ (sample.index.searchDsl [] 0 (-5) false).SizeVal = "10"
    ∧ (sample.index.searchDsl [] 0 (-5) false).FromVal = "0"
    ∧ sample.index.searchDsl [] 0 (-5) false = sample.index.searchDsl [] 0 0 false
    ∧ sample.index.Search sample.echo sample.json [] 0 (-5) false ()
        = Except.error (Err.backend ("10 0 " ++ elasticsearch.searchQuery [])) :=
  ⟨by decide, by decide,
   (elasticsearch.search_page sample.index [] 0 (-5) false).2.2.1 (by decide),
   (elasticsearch.search_page sample.index [] 0 (-5) false).2.2.2.1 (by decide),
   (elasticsearch.search_page sample.index [] 0 (-5) false).2.2.2.2.2.1 (by decide),
   (elasticsearch.search_page sample.index [] 0 (-5) false).2.2.2.2.2.2.2 (by decide)
     (by decide)⟩

/-- C4: the query `Search` builds leaves out the entry the loop visits first. For
the one-entry mapping `name: bob` it is a single blank, with no clause at all; for a
mapping of two or more entries it is a blank followed by the clauses of the second
and later entries joined by `AND`, in every iteration order. -/
theorem elasticsearch.search_query_skips_first :
    elasticsearch.searchQuery [("name", "bob")] = " "
    ∧ elasticsearch.searchQuery [("name", "bob"), ("age", "3")] = " age:(3)"
    ∧ (∀ e : String × String, elasticsearch.searchQuery [e] = " ")
    ∧ ∀ (e e' : String × String) (rest : List (String × String)),
        elasticsearch.searchQuery (e :: e' :: rest)
          = " " ++ elasticsearch.clause e'.1 e'.2
              ++ String.join (rest.map fun kv => " AND " ++ elasticsearch.clause kv.1 kv.2) := by
  have hsp : (" " : String).length = 1 := by decide
  have h1 : ∀ e, elasticsearch.queryStep ("", true) e = (" ", true) := fun e => rfl
  refine ⟨by decide, by decide, fun e => ?_, ?_⟩
  · simp only [elasticsearch.searchQuery, List.length_cons, List.length_nil, List.foldl_cons,
      List.foldl_nil, h1]
    rfl
  intro e e' rest
  have h2 : elasticsearch.queryStep (" ", true) e'
      = (" " ++ elasticsearch.clause e'.1 e'.2, false) := by
    simp [elasticsearch.queryStep, hsp]
  simp only [elasticsearch.searchQuery, List.length_cons, gt_iff_lt, Nat.succ_pos, if_true,
    List.foldl_cons, h1, h2]
  rw [elasticsearch.foldl_queryStep_rest]
  simp only [String.length_append, hsp]
  omega

/-- C6: on the Redis handle `NewDB` returns, before any `Init`, `Read` returns
`ErrNotFound`, but `Delete` returns nil, and `Create` and `Update` return nil unless
the JSON encoder fails; none of the three touches the servers. With the sample
encoder, `Create`, `Update` and `Delete` all report success. -/
theorem redis.unbound_writes_report_success (n : Node) (ns : List Node) :
    ∃ d, redis.NewDB (n :: ns) = (some d, none)
      ∧ (∀ (σ P : Type) (S : redis.Server σ) (J : Json P) (id : String) (w : σ),
          d.Read S J id w = (none, some Err.ErrNotFound))
      ∧ (∀ (σ : Type) (S : redis.Server σ) (id : String) (w : σ), d.Delete S id w = (none, w))
      ∧ (∀ (σ P : Type) (S : redis.Server σ) (J : Json P) (r : Record P) (t₁ t₂ : Int) (w : σ),
          (d.Create S J r t₁ t₂ w).2
              = (match J.Marshal (stamp r t₁ t₂) with
                 | Except.error err => some err
                 | Except.ok _ => none, w)
          ∧ (d.Update S J r t₁ t₂ w).2
              = (match J.Marshal (stamp r t₁ t₂) with
                 | Except.error err => some err
                 | Except.ok _ => none, w))
      ∧ (d.Create redis.kv sample.json sample.post 1478253600 1478253600 redis.Store.empty).2.1
          = none
      ∧ (d.Update redis.kv sample.json sample.post 1478253600 1478253600 redis.Store.empty).2.1
          = none
      ∧ (d.Delete redis.kv "1" redis.Store.empty).1 = none := by
  refine ⟨_, rfl, fun _ _ _ _ _ _ => rfl, fun _ _ _ _ => rfl, ?_, rfl, rfl, rfl⟩
  intro σ P S J r t₁ t₂ w
  constructor
  · dsimp only [redis.redisDB.Create]
    rcases J.Marshal (stamp r t₁ t₂) with err | res <;> rfl
  · dsimp only [redis.redisDB.Update]
    rcases J.Marshal (stamp r t₁ t₂) with err | res <;> rfl

/-- C7: the Elasticsearch driver returns the error of the backend write from
`Create`, `Update` and `Delete`. The Redis driver does not: on a handle bound by
`Init`, `Delete` returns nil whatever error the `Del` command carries, and `Create`
and `Update` return nil whenever the JSON encoder succeeds, whatever error the `Set`
command carries. On servers that refuse the connection, `Create`, `Update` and `Delete`
return nil. -/
theorem redis.write_error_not_returned :
    (∀ (τ P : Type) (C : elasticsearch.Cluster τ P) (e : elasticsearch.elasticsearchDB)
        (r : Record P) (id : String) (t₁ t₂ : Int) (v : τ),
        (e.Create C r t₁ t₂ v).2.1
            = (C.Index e.conn e.elasticIndex e.elasticType r.Id (stamp r t₁ t₂) v).2
        ∧ (e.Update C r t₁ t₂ v).2.1
            = (C.Index e.conn e.elasticIndex e.elasticType r.Id (stamp r t₁ t₂) v).2
        ∧ (e.Delete C id v).1 = (C.Delete e.conn e.elasticIndex e.elasticType id v).2)
    ∧ (∀ (σ : Type) (S : redis.Server σ) (d : redis.redisDB) (mdb : Database) (id : String)
        (w : σ), ((d.Init mdb).1.Delete S id w).1 = none)
    ∧ (∀ (σ P : Type) (S : redis.Server σ) (J : Json P) (d : redis.redisDB) (mdb : Database)
        (r : Record P) (t₁ t₂ : Int) (w : σ),
        ((d.Init mdb).1.Create S J r t₁ t₂ w).2.1
            = (match J.Marshal (stamp r t₁ t₂) with
               | Except.error err => some err
               | Except.ok _ => none)
        ∧ ((d.Init mdb).1.Update S J r t₁ t₂ w).2.1
            = (match J.Marshal (stamp r t₁ t₂) with
               | Except.error err => some err
               | Except.ok _ => none))
    ∧ (sample.down.Set { Addr := "localhost:6379", Password := "", DB := 16 } "1"
          "1,1478253600,1478253600,hello" redis.Store.empty).2
        = some (Err.backend "connection refused")
    ∧ ((sample.fresh.Init { Name := "blog", Table := "posts" }).1.Create sample.down sample.json
          sample.post 1478253600 1478253600 redis.Store.empty).2.1 = none
    ∧ ((sample.fresh.Init { Name := "blog", Table := "posts" }).1.Update sample.down sample.json
          sample.post 1478253600 1478253600 redis.Store.empty).2.1 = none
    ∧ ((sample.fresh.Init { Name := "blog", Table := "posts" }).1.Delete sample.down "1"
          redis.Store.empty).1 = none := by
  refine ⟨?_, ?_, ?_, rfl, by decide, by decide, by decide⟩
  · intro τ P C e r id t₁ t₂ v
    refine ⟨?_, ?_, rfl⟩
    · simp only [elasticsearch.elasticsearchDB.Create, stamp_Id]
    · simp only [elasticsearch.elasticsearchDB.Update, stamp_Id]
  · intro σ S d mdb id w
    simp only [redis.redisDB.Delete, redis.Init_client]
  · intro σ P S J d mdb r t₁ t₂ w
    constructor
    · simp only [redis.redisDB.Create, redis.Init_client]
      rcases J.Marshal (stamp r t₁ t₂) with err | res <;> rfl
    · simp only [redis.redisDB.Update, redis.Init_client]
      rcases J.Marshal (stamp r t₁ t₂) with err | res <;> rfl

/-- C8: `Close` of the Redis driver takes the branch the wrong way round. On a handle
bound by `Init`, where the client of the bound table exists, it returns nil without
calling `client.Close()`; on the handle `NewDB` returns, where no client exists, it
calls `Close()` on the nil client. For every handle, the call is made exactly when no
client is registered for the current table, and then on the nil client. -/
theorem redis.close_branch_inverted :
    (∀ (d : redis.redisDB) (mdb : Database),
        (d.Init mdb).1.Close = (redis.CloseCall.notReached, none))
    ∧ (∀ (n : Node) (ns : List Node),
        (redis.NewDB (n :: ns)).1.map redis.redisDB.Close
          = some (redis.CloseCall.calledOn none, none))
    ∧ (∀ d : redis.redisDB,
        (d.Close.1 = redis.CloseCall.calledOn none ↔ d.clients d.redisType = none)
        ∧ (d.Close.1 = redis.CloseCall.notReached ↔ ∃ c, d.clients d.redisType = some c)) := by
  refine ⟨?_, fun _ _ => rfl, ?_⟩
  · intro d mdb
    simp only [redis.redisDB.Close, redis.Init_client]
  · intro d
    unfold redis.redisDB.Close
    rcases d.clients d.redisType with _ | c <;> simp

/-- C9, refuted: the tables `a` and `b` both have slot 0, and a record created through
the handle bound to `blog`/`a` is read back through the handle bound to `blog`/`b`,
a different descriptor; it is also read back through the handle bound to `shop`/`a`. -/
theorem redis.read_across_descriptors :
    ({ Name := "blog", Table := "a" } : Database) ≠ { Name := "blog", Table := "b" }
    ∧ ({ Name := "blog", Table := "a" } : Database) ≠ { Name := "shop", Table := "a" }
    ∧ redis.hash "a" = 0 ∧ redis.hash "b" = 0
    ∧ ((sample.fresh.Init { Name := "blog", Table := "a" }).1.Create redis.kv sample.json
          sample.post 1478253600 1478253600 redis.Store.empty).1 = sample.stamped
    ∧ (sample.fresh.Init { Name := "blog", Table := "b" }).1.Read redis.kv sample.json "1"
          ((sample.fresh.Init { Name := "blog", Table := "a" }).1.Create redis.kv
            sample.json sample.post 1478253600 1478253600 redis.Store.empty).2.2
        = (some sample.stamped, none)
    ∧ (sample.fresh.Init { Name := "shop", Table := "a" }).1.Read redis.kv sample.json "1"
          ((sample.fresh.Init { Name := "blog", Table := "a" }).1.Create redis.kv
            sample.json sample.post 1478253600 1478253600 redis.Store.empty).2.2
        = (some sample.stamped, none) := by
  refine ⟨by decide, by decide, by decide, by decide, by decide, by decide, by decide⟩

/-- C9, amended: when the tables of two descriptors hash to different slots, `Create`
through a handle bound to the first leaves what `Read` returns through a handle bound
to the second as it was, for every id; on servers that were empty, that `Read` returns
no record and no error. -/
theorem redis.read_unchanged_across_slots {P : Type} (J : Json P) (d d' : redis.redisDB)
    (mdb mdb' : Database) (r : Record P) (t₁ t₂ : Int) (id : String) (w : redis.Store)
    (hslot : redis.hash mdb.Table ≠ redis.hash mdb'.Table) :
    (d'.Init mdb').1.Read redis.kv J id ((d.Init mdb).1.Create redis.kv J r t₁ t₂ w).2.2
        = (d'.Init mdb').1.Read redis.kv J id w
    ∧ (d'.Init mdb').1.Read redis.kv J id
          ((d.Init mdb).1.Create redis.kv J r t₁ t₂ redis.Store.empty).2.2 = (none, none) := by
  have key : ∀ w : redis.Store,
      (d'.Init mdb').1.Read redis.kv J id ((d.Init mdb).1.Create redis.kv J r t₁ t₂ w).2.2
        = (d'.Init mdb').1.Read redis.kv J id w := by
    intro w
    rcases hm : J.Marshal (stamp r t₁ t₂) with err | res
    · simp only [redis.redisDB.Create, hm]
    · rw [redis.Create_eq redis.kv J d mdb r t₁ t₂ w res hm]
      simp only [redis.redisDB.Read, redis.Init_client]
      rw [redis.kv_Get_Set_other]
      exact hslot
  refine ⟨key w, ?_⟩
  rw [key]
  simp only [redis.redisDB.Read, redis.Init_client]
  rfl

/-- C9, amended, at the tables `a` (slot 0) and `posts` (slot 16): the record created
under `blog`/`a` is not read under `blog`/`posts`. -/
theorem redis.read_unchanged_across_slots_witness :
    redis.hash "a" ≠ redis.hash "posts"
    ∧ (sample.fresh.Init { Name := "blog", Table := "posts" }).1.Read redis.kv sample.json "1"
          ((sample.fresh.Init { Name := "blog", Table := "a" }).1.Create redis.kv sample.json
            sample.post 1478253600 1478253600 redis.Store.empty).2.2 = (none, none) :=
  ⟨by decide,
   (redis.read_unchanged_across_slots sample.json sample.fresh sample.fresh
      { Name := "blog", Table := "a" } { Name := "blog", Table := "posts" } sample.post
      1478253600 1478253600 "1" redis.Store.empty (by decide)).2⟩

end DbSrv
